import Mathlib

/-!
A verification development for the document indexing / retrieval subsystem and
the two-stage synthesis controller of the deep_research_agent repository.

The Python sources under `utils/` are shallowly embedded: pure functions become
Lean functions, stateful objects (the vector-store handler) become explicit
state passing, fallible external calls (PDF readers, evidence providers, the
language model) are modelled by explicit outcome data (`Except`, outcome sum
types, or a response function passed in), and the side effect of calling the
language model / a provider is made observable as an explicit trace of
`CallEvent`s, so that "no call is made" claims are statements about the trace.
-/

namespace DeepResearch

/-! ## Python string primitives

Counterparts of the Python `str` operations the embedded code uses, defined on
`List Char` so that they evaluate by plain structural recursion. -/

/-- Python `s.startswith(pre)`. -/
def pyStartswith (s pre : String) : Bool :=
  pre.data.isPrefixOf s.data

/-- Substring search on character lists: does `needle` occur inside `hay`? -/
def listContainsSub (needle hay : List Char) : Bool :=
  needle.isPrefixOf hay ||
    match hay with
    | [] => false
    | _ :: t => listContainsSub needle t

/-- Python `needle in hay` for strings (substring containment). -/
def pyIn (needle hay : String) : Bool :=
  listContainsSub needle.data hay.data

/-- Python `s.lower()`. -/
def pyLower (s : String) : String :=
  ⟨s.data.map Char.toLower⟩

/-- Python `s.strip()`: remove leading and trailing whitespace. -/
def pyStrip (s : String) : String :=
  ⟨((s.data.dropWhile Char.isWhitespace).reverse.dropWhile Char.isWhitespace).reverse⟩

/-- One step of Python `str.replace`: replace every (non-overlapping,
left-to-right) occurrence of `pat` by `rep`.  Python's empty-pattern corner
case is irrelevant here; an empty pattern leaves the list unchanged. -/
def listReplace (s pat rep : List Char) : List Char :=
  if hpat : pat = [] then s
  else
    if hpre : pat.isPrefixOf s then
      rep ++ listReplace (s.drop pat.length) pat rep
    else
      match s with
      | [] => []
      | c :: t => c :: listReplace t pat rep
termination_by s.length
decreasing_by
  · have hlen : pat.length ≤ s.length := by
      have : pat <+: s := by
        simpa [ List.isPrefixOf_iff_prefix] using hpre
      exact this.length_le
    have hpos : 0 < pat.length := List.length_pos.mpr hpat
    simp only [List.length_drop]
    omega
  · simp

/-- Python `s.replace(pat, rep)`. -/
def pyReplace (s pat rep : String) : String :=
  ⟨listReplace s.data pat.data rep.data⟩

/-- Helper for Python `str.title`: the Boolean records whether the previous
character was alphabetic. -/
def pyTitleAux : Bool → List Char → List Char
  | _, [] => []
  | prevAlpha, c :: t =>
    (if c.isAlpha then (if prevAlpha then c.toLower else c.toUpper) else c) ::
      pyTitleAux c.isAlpha t

/-- Python `s.title()`: capitalise the first letter of every word, lowercase
the rest (ASCII behaviour, which is all the embedded code needs). -/
def pyTitle (s : String) : String :=
  ⟨pyTitleAux false s.data⟩

/-! ## Data model

`SourceRecord` models the Python dictionaries that populate `source_data`.
The two shapes the source builds (normalized provider records with
`title`/`content`/`url`/`metadata`, and indexed-PDF records with
`title`/`content`/`source`/`chunk_number`/`pdf_type`/`page_number`) are
covered by one record with optional fields; a `none` field models the key
being absent from the dictionary, matching Python `dict.get` semantics. -/

/-- A generic string-keyed metadata dictionary (the `metadata` payload kept on
normalized provider records). -/
abbrev MetaMap := List (String × String)

/-- One entry of a `source_data` list (a Python dict). -/
structure SourceRecord where
  title : Option String := none
  content : Option String := none
  url : Option String := none
  source : Option String := none
  chunk_number : Option String := none
  pdf_type : Option String := none
  page_number : Option String := none
  metadata : Option MetaMap := none
deriving DecidableEq, Repr

/-- The `source_data`: the insertion-ordered Python dict mapping a category key
(e.g. `"web_sources"`, `"pdf_sources"`) to its list of records. -/
abbrev SourceData := List (String × List SourceRecord)

/-- Observable external calls, recorded as a trace so that claims about "no
language-model call" / "no provider-fetch call" are meaningful. -/
inductive CallEvent where
  /-- A call to `llm_handler.get_llm_response prompt system`. -/
  | llmCall (prompt : String) (system : String)
  /-- An invocation of a registered provider fetch function. -/
  | providerFetch (source : String) (query : String) (budget : Nat)
deriving DecidableEq, Repr

/-- Is this event a provider fetch? -/
def CallEvent.isProviderFetch : CallEvent → Bool
  | .providerFetch _ _ _ => true
  | .llmCall _ _ => false

/-- The dictionary returned by `_perform_synthesis` / `conduct_research` /
`regenerate_report_from_sources`. -/
structure SynthResult where
  report : String
  source_data : SourceData
  is_raw_data : Bool
deriving DecidableEq, Repr

/-- The `total_sources = sum(len(sources) for sources in source_data.values())`. -/
def totalSources (sd : SourceData) : Nat :=
  (sd.map fun p => p.2.length).sum

/-! ## Chunks and the vector store (`utils/document_indexer.py`,
`utils/vector_store_handler.py`)

A Langchain `Document` is a text payload plus a metadata dict.  The metadata
dicts built by this repository use at most the keys below; a `none` field
models the key being absent. -/

/-- The metadata dict attached to an indexed chunk. -/
structure ChunkMeta where
  source : Option String := none
  chunk_number : Option Nat := none
  total_chunks : Option Nat := none
  pdf_type : Option String := none
  page_number : Option Nat := none
deriving DecidableEq, Repr

/-- A Langchain `Document` (chunk): `page_content` plus metadata. -/
structure LangchainDocument where
  page_content : String
  metadata : ChunkMeta
deriving DecidableEq, Repr

/-- The `DocumentIndexer.process_pdf` (document_indexer.py:121-154), after text
extraction.  The text extraction steps (`_extract_text_from_pdf_pypdf2` and
`_extract_text_with_ocr`) wrap the external PyPDF2 / pytesseract libraries, so
the composed extraction result `final_text_to_chunk` and the external
`RecursiveCharacterTextSplitter.split_text` are parameters; the function body
below is the repository's own logic: the emptiness guard and the construction
of one `LangchainDocument` per chunk with metadata
`{source, chunk_number, total_chunks}`. -/
def DocumentIndexer.process_pdf (split_text : String → List String)
    (final_text_to_chunk : String) (pdf_name : String) : List LangchainDocument :=
  if pyStrip final_text_to_chunk = "" then []
  else
    let text_chunks := split_text final_text_to_chunk
    text_chunks.enum.map fun p =>
      { page_content := p.2,
        metadata := { source := some pdf_name,
                      chunk_number := some (p.1 + 1),
                      total_chunks := some text_chunks.length } }

/-- The vector-store handler.  The external FAISS index together with the
sentence-transformer embedding model is modelled by the list of stored
documents plus a deterministic one-dimensional embedding function `emb`
(spec 4.2/6: the index serves nearest-neighbour retrieval under the index's
similarity metric; the metric itself belongs to the excluded collaborator).
`vector_store = none` models `self.vector_store is None`. -/
structure VectorStoreHandler where
  emb : String → Int
  model_name : String
  vector_store : Option (List LangchainDocument)

/-- Distance of a stored document to the query under the modelled embedding. -/
def distTo (emb : String → Int) (query : String) (d : LangchainDocument) : Nat :=
  (emb d.page_content - emb query).natAbs

/-- Insert a `(distance, document)` pair into a distance-sorted list. -/
def insertPair (x : Nat × LangchainDocument) :
    List (Nat × LangchainDocument) → List (Nat × LangchainDocument)
  | [] => [x]
  | y :: t => if x.1 ≤ y.1 then x :: y :: t else y :: insertPair x t

/-- Insertion sort of `(distance, document)` pairs by ascending distance. -/
def sortPairs : List (Nat × LangchainDocument) → List (Nat × LangchainDocument)
  | [] => []
  | x :: t => insertPair x (sortPairs t)

/-- Model of the external `FAISS.similarity_search`: the `k` stored documents
nearest to the query's embedding, nearest first (a non-positive `k` yields no
results; a raising backend would be caught by the handler's `except` and also
yield `[]`). -/
def faissSimilaritySearch (emb : String → Int) (docs : List LangchainDocument)
    (query : String) (k : Int) : List LangchainDocument :=
  ((sortPairs (docs.map fun d => (distTo emb query d, d))).map Prod.snd).take k.toNat

/-- The `VectorStoreHandler.init_store_from_documents`
(vector_store_handler.py:29-49): empty input leaves the store uninitialized,
otherwise the store is rebuilt from exactly the given documents. -/
def VectorStoreHandler.init_store_from_documents (h : VectorStoreHandler)
    (documents : List LangchainDocument) : VectorStoreHandler :=
  if documents = [] then { h with vector_store := none }
  else { h with vector_store := some documents }

/-- The `VectorStoreHandler.add_documents_to_store`
(vector_store_handler.py:52-76): no-op on empty input; initializes the store
when absent; otherwise appends (`FAISS.add_documents` embeds and inserts the
new documents after the existing ones). -/
def VectorStoreHandler.add_documents_to_store (h : VectorStoreHandler)
    (documents : List LangchainDocument) : VectorStoreHandler :=
  if documents = [] then h
  else
    match h.vector_store with
    | none => h.init_store_from_documents documents
    | some stored => { h with vector_store := some (stored ++ documents) }

/-- The status dict returned by `get_store_status`. -/
structure StoreStatus where
  status : String
  num_docs : Nat
  embedding_model : Option String
deriving DecidableEq, Repr

/-- The `VectorStoreHandler.get_store_status` (vector_store_handler.py:109-118):
`num_docs` is the number of vectors (`len(index_to_docstore_id)`), which
equals the number of stored documents. -/
def VectorStoreHandler.get_store_status (h : VectorStoreHandler) : StoreStatus :=
  match h.vector_store with
  | none => { status := "Not initialized", num_docs := 0, embedding_model := none }
  | some stored =>
      { status := "Initialized", num_docs := stored.length,
        embedding_model := some h.model_name }

/-- The `VectorStoreHandler.search_relevant_chunks`
(vector_store_handler.py:78-107).  The method only reads `self`, so the
returned handler is the unchanged state; the guards (`store is None`, empty
query) are the source's, the search itself is the modelled external call. -/
def VectorStoreHandler.search_relevant_chunks (h : VectorStoreHandler)
    (query : String) (k : Int) : List LangchainDocument × VectorStoreHandler :=
  match h.vector_store with
  | none => ([], h)
  | some docs =>
      if query = "" then ([], h)
      else (faissSimilaritySearch h.emb docs query k, h)

/-! ## Synthesis controller (`utils/research_agent.py`, lines 189-481)

The language-model client `llm_handler.get_llm_response` is the excluded
collaborator `complete(prompt, system) -> string` (spec section 6); it is
passed in as a response function `llm`, and every call the controller makes is
recorded in the returned `CallEvent` trace. -/

/-- The default `system_prompt` of `llm_handler.get_llm_response`. -/
def defaultSystemPrompt : String := "You are a helpful research assistant."

/-- The `source_type.replace('_sources', '').replace('_', ' ').title()`. -/
def sourceTypeName (source_type : String) : String :=
  pyTitle (pyReplace (pyReplace source_type "_sources" "") "_" " ")

/-- The `URL:` line of the combined content: emitted only when
`source.get('url')` is truthy (present and non-empty). -/
def urlLine (r : SourceRecord) : String :=
  match r.url with
  | some u => if u = "" then "" else "URL: " ++ u ++ "\n"
  | none => ""

/-- The `combined_content` accumulator of `_summarize_individual_sources`
(research_agent.py:204-211). -/
def combinedContent (source_type_name : String) (sources : List SourceRecord) : String :=
  String.join <| sources.enum.map fun p =>
    "\n--- " ++ source_type_name ++ " Source " ++ toString (p.1 + 1) ++ " ---\n" ++
    "Title: " ++ p.2.title.getD "No title" ++ "\n" ++
    "Content: " ++ p.2.content.getD "No content" ++ "\n" ++
    urlLine p.2 ++
    "---\n"

/-- The `summary_prompt` f-string of `_summarize_individual_sources`
(research_agent.py:214-231). -/
def summaryPrompt (query source_type_name combined_content : String) : String :=
  "\nYou are an expert research assistant. Your task is to summarize the key information from the following " ++
  source_type_name ++
  " sources related to this query:\n\nQuery: \"" ++
  query ++
  "\"\n\n" ++
  source_type_name ++
  " Sources:\n" ++
  combined_content ++
  "\n\nInstructions:\n1. Focus on information directly relevant to the query\n2. Extract key facts, findings, and insights\n3. Maintain objectivity and accuracy\n4. Highlight any conflicting information within these sources\n5. Keep the summary concise but comprehensive (aim for 200-400 words)\n6. Note the type and reliability of the source material\n\nProvide a clear, structured summary:\n"

/-- Stage A, `_summarize_individual_sources` (research_agent.py:189-246):
one language-model call per non-empty category; an error-shaped response (or
an exception from the call) is replaced by a literal placeholder summary. -/
def summarize_individual_sources (llm : String → String → String) (query : String) :
    SourceData → List (String × String) × List CallEvent
  | [] => ([], [])
  | p :: rest =>
    if p.2.isEmpty then summarize_individual_sources llm query rest
    else
      let source_type_name := sourceTypeName p.1
      let prompt := summaryPrompt query source_type_name (combinedContent source_type_name p.2)
      let resp := llm prompt defaultSystemPrompt
      let summary :=
        if pyStartswith resp "Error:" then
          "Error summarizing " ++ source_type_name ++ " sources."
        else resp
      let tail := summarize_individual_sources llm query rest
      ((p.1, summary) :: tail.1, CallEvent.llmCall prompt defaultSystemPrompt :: tail.2)

/-- The `synthesis_prompt` f-string of `_create_final_synthesis`
(research_agent.py:262-288). -/
def synthesisPrompt (query combined_summaries : String) : String :=
  "\nYou are an expert research analyst. Your task is to create a comprehensive, balanced synthesis from the following source summaries to answer the user\x27s query.\n\nUser\x27s Query: \"" ++
  query ++
  "\"\n\nSource Summaries:\n" ++
  combined_summaries ++
  "\n\nInstructions:\n1. Create a balanced, comprehensive answer that draws from ALL source types equally\n2. Ensure no single source type dominates the final conclusion\n3. Identify areas of agreement and disagreement across sources\n4. Highlight the strengths and limitations of different source types\n5. Provide a well-structured, analytical response\n6. Use clear headings and bullet points where appropriate\n7. Acknowledge any gaps in the available information\n8. Maintain objectivity and avoid bias toward any particular source type\n\nStructure your response with:\n- Executive Summary\n- Key Findings (organized by theme)\n- Source Analysis (strengths/limitations of each source type)\n- Conclusions and Recommendations\n- Areas for Further Research\n\nBegin your synthesis:\n"

/-- Stage B, `_create_final_synthesis` (research_agent.py:248-302): a single
cross-category call; no call at all if there are no Stage A summaries. -/
def create_final_synthesis (llm : String → String → String) (query : String)
    (source_summaries : List (String × String)) : String × List CallEvent :=
  if source_summaries.isEmpty then
    ("No source summaries available for synthesis.", [])
  else
    let combined_summaries := String.join <| source_summaries.map fun p =>
      "\n--- " ++ sourceTypeName p.1 ++ " Summary ---\n" ++ p.2 ++ "\n---\n"
    let prompt := synthesisPrompt query combined_summaries
    let resp := llm prompt defaultSystemPrompt
    (if pyStartswith resp "Error:" then "Error creating final synthesis: " ++ resp else resp,
     [CallEvent.llmCall prompt defaultSystemPrompt])

/-- The shared `Processing Issues` section header (research_agent.py:352-355
and 390-393 are the same text). -/
def processingIssuesHeader : String :=
  "\n<h2 style=\"color: #e74c3c; margin-top: 30px;\">\u201A\u00F6\u2020\u00D4\u220F\u00E8 Processing Issues</h2>\n<div style=\"background: #fdf2f2; border-left: 4px solid #e74c3c; padding: 15px; margin: 15px 0;\">\n"

/-- One error bullet line (research_agent.py:357 and 395). -/
def errLine (err : String) : String :=
  "<div style=\x27margin: 8px 0; color: #c0392b;\x27>\u201A\u00C4\u00A2 " ++ err ++ "</div>"

/-- The `_create_final_report` (research_agent.py:304-372). -/
def create_final_report (query final_synthesis : String) (source_data : SourceData)
    (source_summaries : List (String × String)) (processing_errors : List String) : String :=
  let total_sources := totalSources source_data
  let report :=
    "\n<div style=\"font-family: \x27Segoe UI\x27, Tahoma, Geneva, Verdana, sans-serif;\">\n<h1 style=\"color: #2c3e50; border-bottom: 3px solid #667eea; padding-bottom: 10px;\">AI Research Report: \"" ++
    query ++
    "\"</h1>\n\n<div style=\"background: #e8f5e8; border: 1px solid #c8e6c9; border-radius: 8px; padding: 15px; margin: 20px 0;\">\n<strong>\uF8FF\u00FC\u00A7\u00F1 Multi-Stage AI Synthesis:</strong> This report uses a two-stage AI process: individual source summarization followed by balanced synthesis to ensure no single source dominates the results.\n</div>\n"
  let report := report ++
    (if total_sources > 0 then
      "\n<h2 style=\"color: #34495e; margin-top: 30px;\">\uF8FF\u00FC\u00EC\u00E4 Sources Analyzed</h2>\n<div style=\"background: #f8f9fa; border-radius: 8px; padding: 15px; margin: 15px 0;\">\n<div style=\"font-weight: bold; margin-bottom: 10px;\">Total Sources: " ++
      toString total_sources ++
      "</div>\n" ++
      (String.join <| source_data.map fun p =>
        if p.2.isEmpty then ""
        else
          "<div style=\x27margin: 5px 0;\x27>\u201A\u00C4\u00A2 " ++ sourceTypeName p.1 ++ ": " ++
          toString p.2.length ++ " sources</div>") ++
      "</div>"
    else "")
  let report := report ++
    (if source_summaries.isEmpty then ""
    else
      "\n<h2 style=\"color: #34495e; margin-top: 30px;\">\uF8FF\u00FC\u00EC\u00F9 Individual Source Summaries</h2>\n<div style=\"background: #f8f9fa; border-radius: 8px; padding: 15px; margin: 15px 0;\">\n" ++
      (String.join <| source_summaries.map fun p =>
        "\n<div style=\"margin: 20px 0; padding: 15px; background: white; border-radius: 5px; border-left: 4px solid #667eea;\">\n<h3 style=\"color: #2c3e50; margin-top: 0;\">" ++
        sourceTypeName p.1 ++
        "</h3>\n<div style=\"line-height: 1.6;\">" ++
        p.2 ++
        "</div>\n</div>\n") ++
      "</div>")
  let report := report ++
    (if processing_errors.isEmpty then ""
    else processingIssuesHeader ++ String.join (processing_errors.map errLine) ++ "</div>")
  report ++
    "\n<hr style=\"margin: 30px 0; border: none; border-top: 2px solid #e1e8ed;\">\n<h2 style=\"color: #2c3e50; margin-top: 30px;\">\uF8FF\u00FC\u00ED\u00B0 Final AI Synthesis</h2>\n<div style=\"background: white; border: 1px solid #e1e8ed; border-radius: 8px; padding: 25px; margin: 15px 0; box-shadow: 0 2px 8px rgba(0,0,0,0.1); line-height: 1.6; font-size: 1.1em;\">\n" ++
    final_synthesis ++
    "\n</div>\n</div>\n"

/-- The `_create_raw_data_report` (research_agent.py:374-410): the report produced
when the language model is unavailable.  Its text holds a note, the upstream
errors and the total source count; the individual records travel only in the
returned `source_data`. -/
def create_raw_data_report (query : String) (source_data : SourceData)
    (processing_errors : List String) : SynthResult :=
  let total_sources := totalSources source_data
  let report :=
    "\n<div style=\"font-family: \x27Segoe UI\x27, Tahoma, Geneva, Verdana, sans-serif;\">\n<h1 style=\"color: #2c3e50; border-bottom: 3px solid #667eea; padding-bottom: 10px;\">Research Report: \"" ++
    query ++
    "\"</h1>\n\n<div style=\"background: #fff3cd; border: 1px solid #ffeaa7; border-radius: 8px; padding: 15px; margin: 20px 0;\">\n<strong>\u201A\u00D1\u03C0\u00D4\u220F\u00E8 Note:</strong> LLM processing is not available. Use the Source Management section below to view individual source excerpts and regenerate insights.\n</div>\n"
  let report := report ++
    (if processing_errors.isEmpty then ""
    else processingIssuesHeader ++ String.join (processing_errors.map errLine) ++ "</div>")
  let report := report ++
    "\n<hr style=\"margin: 30px 0; border: none; border-top: 2px solid #e1e8ed;\">\n<div style=\"background: #e8f5e8; border: 1px solid #c8e6c9; border-radius: 8px; padding: 15px; margin: 20px 0;\">\n    <strong>\uF8FF\u00FC\u00EC\u00E4 Summary:</strong> " ++
    toString total_sources ++
    " sources were processed. Use the Source Management section below to view individual excerpts and regenerate insights from selected sources.\n</div>\n</div>\n"
  { report := report, source_data := source_data, is_raw_data := true }

/-- The availability decision of `_perform_synthesis` (research_agent.py:456):
`llm_available = not (resp.startswith("Error:") or "Azure OpenAI" in resp or
"Language Model" in resp)`; this is the negation. -/
def llmUnavailable (resp : String) : Bool :=
  pyStartswith resp "Error:" || pyIn "Azure OpenAI" resp || pyIn "Language Model" resp

/-- The availability probe call of `_perform_synthesis` (research_agent.py:455). -/
def probeEvent : CallEvent := CallEvent.llmCall "Test" "You are a helpful assistant."

/-- The `_perform_synthesis` (research_agent.py:432-481): the three-outcome state
machine (Empty-Report, Degraded-Report, Synthesized-Report). -/
def perform_synthesis (llm : String → String → String) (query : String)
    (source_data : SourceData) (processing_errors : List String) :
    SynthResult × List CallEvent :=
  if totalSources source_data = 0 then
    ({ report := "No information was available to generate a report.",
       source_data := source_data, is_raw_data := true }, [])
  else
    let llm_test_response := llm "Test" "You are a helpful assistant."
    let llm_available := !llmUnavailable llm_test_response
    if llm_available = false then
      (create_raw_data_report query source_data processing_errors, [probeEvent])
    else
      let stageA := summarize_individual_sources llm query source_data
      let stageB := create_final_synthesis llm query stageA.1
      ({ report := create_final_report query stageB.1 source_data stageA.1 processing_errors,
         source_data := source_data, is_raw_data := false },
       probeEvent :: (stageA.2 ++ stageB.2))

/-- The `regenerate_report_from_sources` (research_agent.py:412-429): re-enters
`_perform_synthesis` on the caller-filtered records with an empty
`processing_errors` list. -/
def regenerate_report_from_sources (llm : String → String → String) (query : String)
    (source_data : SourceData) : SynthResult × List CallEvent :=
  perform_synthesis llm query source_data []

/-! ## Source aggregator (`conduct_research`, research_agent.py:60-187)

Providers are the excluded collaborators `fetch(query, budget) -> list<dict>`
(spec section 6); a provider is modelled as a function returning either a list
of items or (`Except.error`) the message of a raised exception.  The provider
registry `AVAILABLE_SOURCES` is environment-dependent global state and is
passed in as an insertion-ordered association list (`SOURCE_PDF` maps to no
fetch function). -/

/-- The `SOURCE_PDF` (research_agent.py:27). -/
def SOURCE_PDF : String := "Indexed PDFs"

/-- The `MAX_DUCKDUCKGO_RESULTS` (research_agent.py:22). -/
def MAX_DUCKDUCKGO_RESULTS : Nat := 3

/-- The `MAX_PDF_CHUNKS_TO_LLM` (research_agent.py:23). -/
def MAX_PDF_CHUNKS_TO_LLM : Int := 5

/-- The `duckduckgo_searcher.SOURCE_NAME` (duckduckgo_searcher.py:5). -/
def duckduckgoSourceName : String := "DuckDuckGo Search"

/-- Evaluating `pubmed_fetcher.SOURCE_NAME`: `utils/pubmed_fetcher.py` defines
no `SOURCE_NAME` attribute, so the attribute access raises `AttributeError`
(this is what CPython raises, with this message). -/
def pubmedSourceNameAttr : Except String String :=
  Except.error "module \x27utils.pubmed_fetcher\x27 has no attribute \x27SOURCE_NAME\x27"

/-- A provider-response item: providers return lists whose members are
usually dicts, but `conduct_research` guards against non-dict members. -/
structure FetchDict where
  title : Option String := none
  content : Option String := none
  snippet : Option String := none
  url : Option String := none
  href : Option String := none
  metadata : Option MetaMap := none
deriving DecidableEq, Repr

/-- A member of a provider's response list. -/
inductive FetchItem where
  | dict (d : FetchDict)
  | nonDict (text : String)
deriving DecidableEq, Repr

/-- A provider fetch function: query and result budget to either a response
list or the message of a raised exception. -/
abbrev ProviderFn := String → Nat → Except String (List FetchItem)

/-- Normalization of one provider dict into the common record shape
(research_agent.py:166-177). -/
def normalizeItem (d : FetchDict) : SourceRecord :=
  { title := some (d.title.getD "No title"),
    content := some ((d.content.orElse fun _ => d.snippet).getD "No content available"),
    url := some ((d.url.orElse fun _ => d.href).getD ""),
    metadata := some (d.metadata.getD []) }

/-- The generic `source_key` derivation (research_agent.py:158). -/
def genericSourceKey (source_name : String) : String :=
  pyReplace
    (pyStrip (pyReplace (pyReplace (pyReplace (pyLower source_name) " " "_") "articles" "")
      "papers" ""))
    "__" "_" ++ "_sources"

/-- Does the `source_data` dict already have this key? -/
def dictHasKey (sd : SourceData) (k : String) : Bool := sd.any fun p => p.1 = k

/-- The `source_data.setdefault(key, []); source_data[key].extend(recs)`:
create the key if absent (insertion order), then append the new records. -/
def dictAppend (sd : SourceData) (k : String) (recs : List SourceRecord) : SourceData :=
  if dictHasKey sd k then sd.map fun p => if p.1 = k then (p.1, p.2 ++ recs) else p
  else sd ++ [(k, recs)]

/-- The `try:` body of the provider loop (research_agent.py:136-145).  The
first statement compares `source_name` against `pubmed_fetcher.SOURCE_NAME`;
since that attribute does not exist, the body fails before any fetch call is
made.  The remaining branches mirror the source and record the fetch event
when (counterfactually) a fetch is performed. -/
def providerTryBody (query : String) (max_pubmed_articles : Nat) (source_name : String)
    (fetch_function : ProviderFn) : Except String (List FetchItem × List CallEvent) :=
  match pubmedSourceNameAttr with
  | .error e => .error e
  | .ok pubmedName =>
      let budget :=
        if source_name = pubmedName then max_pubmed_articles
        else if source_name = duckduckgoSourceName then MAX_DUCKDUCKGO_RESULTS
        else 10
      match fetch_function query budget with
      | .error e => .error e
      | .ok results => .ok (results, [CallEvent.providerFetch source_name query budget])

/-- The provider loop of `conduct_research` (research_agent.py:129-184):
for each registered source that is selected and has a fetch function, run the
`try:` body; an exception becomes an `"Exception fetching from …"` error
string and the loop continues; a successful non-empty result list is
normalized under the source's key (non-dict items skipped). -/
def providerLoop (query : String) (max_pubmed_articles : Nat)
    (registry : List (String × Option ProviderFn)) (selected_data_sources : List String)
    (init : SourceData × List String × List CallEvent) :
    SourceData × List String × List CallEvent :=
  List.foldl (fun acc p =>
    match p.2 with
    | none => acc
    | some fetch_function =>
        if p.1 ∈ selected_data_sources then
          if query = "" then acc
          else
            match providerTryBody query max_pubmed_articles p.1 fetch_function with
            | .error e =>
                (acc.1, acc.2.1 ++ ["Exception fetching from " ++ p.1 ++ ": " ++ e], acc.2.2)
            | .ok (results, evs) =>
                if results.isEmpty then (acc.1, acc.2.1, acc.2.2 ++ evs)
                else
                  let source_key :=
                    if p.1 = duckduckgoSourceName then "web_sources" else genericSourceKey p.1
                  let recs := results.filterMap fun it =>
                    match it with
                    | FetchItem.dict d => some (normalizeItem d)
                    | FetchItem.nonDict _ => none
                  (dictAppend acc.1 source_key recs, acc.2.1, acc.2.2 ++ evs)
        else acc)
    init registry

/-- The record built from an indexed-PDF chunk (research_agent.py:109-118). -/
def recordFromChunk (chunk_doc : LangchainDocument) : SourceRecord :=
  let pdf_type := chunk_doc.metadata.pdf_type.getD "Unknown"
  { title := some ("PDF: " ++ chunk_doc.metadata.source.getD "N/A" ++ " (Type: " ++ pdf_type ++
      ", Chunk " ++ (chunk_doc.metadata.chunk_number.map toString).getD "N/A" ++ ")"),
    content := some chunk_doc.page_content,
    source := some (chunk_doc.metadata.source.getD "N/A"),
    chunk_number := some ((chunk_doc.metadata.chunk_number.map toString).getD "N/A"),
    pdf_type := some pdf_type,
    page_number := some ((chunk_doc.metadata.page_number.map toString).getD "N/A") }

/-- The chunk-type filter of `conduct_research` (research_agent.py:97-107):
it only applies when `pdf_types` is a truthy (non-empty) dict AND no uploaded
files were passed; the allowed set is the dict's values; a chunk's label
defaults to `"Unknown"`. -/
def filterChunksByType :
    Option (List (String × String)) → Bool → List LangchainDocument →
      List LangchainDocument
  | some ts, uploaded_pdf_files, relevant_pdf_chunks =>
      if ts ≠ [] ∧ uploaded_pdf_files = false then
        let selected_types := ts.map Prod.snd
        if selected_types ≠ [] then
          relevant_pdf_chunks.filter fun chunk_doc =>
            selected_types.contains (chunk_doc.metadata.pdf_type.getD "Unknown")
        else relevant_pdf_chunks
      else relevant_pdf_chunks
  | none, _, relevant_pdf_chunks => relevant_pdf_chunks

/-- Step 1 of `conduct_research` (research_agent.py:89-127): query the
indexed-PDF store when the PDF source is selected and a populated store is
available.  The `pdf_sources` key is created before the search results are
appended, so it exists (possibly empty) whenever the branch is taken. -/
def pdfStep (query : String) (selected_data_sources : List String)
    (uploaded_pdf_files : Bool) (pdf_types : Option (List (String × String)))
    (pdf_vector_store : Option VectorStoreHandler) : SourceData × List String :=
  match pdf_vector_store with
  | some handler =>
      match handler.vector_store with
      | some _ =>
          if SOURCE_PDF ∈ selected_data_sources then
            let relevant_pdf_chunks :=
              (handler.search_relevant_chunks query MAX_PDF_CHUNKS_TO_LLM).1
            if relevant_pdf_chunks ≠ [] then
              let filtered_chunks :=
                filterChunksByType pdf_types uploaded_pdf_files relevant_pdf_chunks
              ([("pdf_sources", filtered_chunks.map recordFromChunk)], [])
            else ([("pdf_sources", [])], [])
          else ([], [])
      | none => ([], [])
  | none => ([], [])

/-- The `conduct_research` (research_agent.py:60-187): PDF step, then the provider
loop, then `_perform_synthesis` on the gathered records and errors. -/
def conduct_research (llm : String → String → String)
    (registry : List (String × Option ProviderFn)) (query : String)
    (selected_data_sources : List String) (uploaded_pdf_files : Bool)
    (pdf_types : Option (List (String × String))) (max_pubmed_articles : Nat)
    (pdf_vector_store : Option VectorStoreHandler) : SynthResult × List CallEvent :=
  let step1 := pdfStep query selected_data_sources uploaded_pdf_files pdf_types pdf_vector_store
  let step2 := providerLoop query max_pubmed_articles registry selected_data_sources
    (step1.1, step1.2, [])
  let synth := perform_synthesis llm query step2.1 step2.2.1
  (synth.1, step2.2.2 ++ synth.2)

/-! ## PDF text extraction (`utils/pdf_processing.py`)

The external PyPDF2 read of a stream either yields per-page extraction
results (`page.extract_text()` may return `None`, replaced by `""`), raises
`PdfReadError`, or raises some other exception; the outcome is the model of
the stream. -/

/-- Behaviour of reading one PDF stream through PyPDF2. -/
inductive PdfStreamBehavior where
  | ok (pages : List (Option String))
  | pdfReadError (msg : String)
  | otherError (msg : String)
deriving DecidableEq, Repr

/-- Did the PyPDF2 read raise? -/
def PdfStreamBehavior.raises : PdfStreamBehavior → Bool
  | .ok _ => false
  | .pdfReadError _ => true
  | .otherError _ => true

/-- The `extract_text_from_pdf_stream` (pdf_processing.py:4-28): both exception
branches return an ordinary string beginning `"Could not extract text
from"`; nothing propagates. -/
def extract_text_from_pdf_stream (stream : PdfStreamBehavior) (filename : String) : String :=
  match stream with
  | .ok pages => String.intercalate "\n" (pages.map fun p => p.getD "")
  | .pdfReadError _ =>
      "Could not extract text from " ++ filename ++ ": File is corrupted or password-protected."
  | .otherError _ =>
      "Could not extract text from " ++ filename ++ ": An unexpected error occurred."

/-- An uploaded file: its name, whether the outer per-file handling itself
raises (e.g. on `seek`), and the PyPDF2 behaviour of its stream. -/
structure UploadedFile where
  name : String
  outer_raises : Bool
  stream : PdfStreamBehavior
deriving DecidableEq, Repr

/-- Does processing this file end in one of the error strings? -/
def UploadedFile.fails (f : UploadedFile) : Bool :=
  f.outer_raises || f.stream.raises

/-- The `extract_text_from_uploaded_files` (pdf_processing.py:30-61): one output
string per uploaded file, in order; failures contribute their error string at
the same position. -/
def extract_text_from_uploaded_files (uploaded_files : List UploadedFile) : List String :=
  uploaded_files.map fun uploaded_file =>
    if uploaded_file.outer_raises then
      "Could not extract text from " ++ uploaded_file.name ++ ": Critical processing error."
    else
      extract_text_from_pdf_stream uploaded_file.stream uploaded_file.name


/-! ## Basic properties of the synthesis controller -/

/-- All three outcomes of `_perform_synthesis` return the input grouped
records unchanged in the `source_data` field. -/
lemma perform_synthesis_source_data (llm : String → String → String) (query : String)
    (sd : SourceData) (errs : List String) :
    ((perform_synthesis llm query sd errs).1).source_data = sd := by
  unfold perform_synthesis create_raw_data_report
  split
  · rfl
  · dsimp only
    split
    · rfl
    · rfl

/-- When records are present and the probe response is classified
unavailable, `_perform_synthesis` returns the raw-data report and makes the
probe call only. -/
lemma perform_synthesis_degraded (llm : String → String → String) (query : String)
    (sd : SourceData) (errs : List String)
    (h1 : totalSources sd ≠ 0)
    (h2 : llmUnavailable (llm "Test" "You are a helpful assistant.") = true) :
    perform_synthesis llm query sd errs = (create_raw_data_report query sd errs, [probeEvent]) := by
  unfold perform_synthesis
  rw [if_neg h1]
  dsimp only
  rw [h2]
  rfl

/-- When records are present and the probe response is classified available,
`_perform_synthesis` runs the two-stage pipeline. -/
lemma perform_synthesis_available (llm : String → String → String) (query : String)
    (sd : SourceData) (errs : List String)
    (h1 : totalSources sd ≠ 0)
    (h2 : llmUnavailable (llm "Test" "You are a helpful assistant.") = false) :
    perform_synthesis llm query sd errs =
      ({ report := create_final_report query
            (create_final_synthesis llm query (summarize_individual_sources llm query sd).1).1
            sd (summarize_individual_sources llm query sd).1 errs,
         source_data := sd, is_raw_data := false },
       probeEvent :: ((summarize_individual_sources llm query sd).2 ++
         (create_final_synthesis llm query (summarize_individual_sources llm query sd).1).2)) := by
  unfold perform_synthesis
  rw [if_neg h1]
  dsimp only
  rw [h2]
  rfl

/-- Stage A records only language-model calls in its trace. -/
lemma summarize_trace_llm (llm : String → String → String) (query : String)
    (sd : SourceData) :
    ∀ e ∈ (summarize_individual_sources llm query sd).2, e.isProviderFetch = false := by
  induction sd with
  | nil =>
      intro e he
      simp [summarize_individual_sources] at he
  | cons p rest ih =>
      intro e he
      by_cases hp : p.2.isEmpty
      · rw [summarize_individual_sources, if_pos hp] at he
        exact ih e he
      · rw [summarize_individual_sources, if_neg hp] at he
        rcases List.mem_cons.mp he with h | h
        · subst h; rfl
        · exact ih e h

/-- Stage B records only language-model calls in its trace. -/
lemma final_synthesis_trace_llm (llm : String → String → String) (query : String)
    (ss : List (String × String)) :
    ∀ e ∈ (create_final_synthesis llm query ss).2, e.isProviderFetch = false := by
  unfold create_final_synthesis
  split
  · intro e he; simp at he
  · intro e he
    simp only [List.mem_singleton] at he
    subst he; rfl

/-- The whole synthesis controller records only language-model calls. -/
lemma perform_synthesis_trace_llm (llm : String → String → String) (query : String)
    (sd : SourceData) (errs : List String) :
    ∀ e ∈ (perform_synthesis llm query sd errs).2, e.isProviderFetch = false := by
  unfold perform_synthesis
  split
  · intro e he; simp at he
  · dsimp only
    split
    · intro e he
      simp only [List.mem_singleton] at he
      subst he; rfl
    · intro e he
      rcases List.mem_cons.mp he with h | h
      · subst h; rfl
      · rcases List.mem_append.mp h with h | h
        · exact summarize_trace_llm llm query sd e h
        · exact final_synthesis_trace_llm llm query _ e h

/-! ## Claim theorems -/

/-- C2.  If the total Evidence Record count over all categories is 0, the
synthesis controller returns immediately with the explanatory message, marks
the result as raw data, and its call trace is empty: no language-model call of
any kind, including the availability probe, is made. -/
theorem c2_empty_report (llm : String → String → String) (query : String)
    (sd : SourceData) (errs : List String)
    (h : totalSources sd = 0) :
    perform_synthesis llm query sd errs =
      ({ report := "No information was available to generate a report.",
         source_data := sd, is_raw_data := true }, []) := by
  unfold perform_synthesis
  rw [if_pos h]

/-- Witness for C2 at a concrete input: one selected category with zero
records. -/
theorem c2_empty_report_witness :
    perform_synthesis (fun _ _ => "any response") "gene editing"
        [("web_sources", []), ("pubmed_sources", [])] [] =
      ({ report := "No information was available to generate a report.",
         source_data := [("web_sources", []), ("pubmed_sources", [])],
         is_raw_data := true }, []) :=
  c2_empty_report (fun _ _ => "any response") "gene editing"
    [("web_sources", []), ("pubmed_sources", [])] [] (by decide)

/-- C4.  Regenerate-from-selection re-enters the same synthesis state machine
on exactly the supplied records with an empty upstream-error list, issues zero
provider-fetch calls, and returns the supplied records unchanged, so its
report is a function of the filtered records only. -/
theorem c4_regeneration_purity (llm : String → String → String) (query : String)
    (sd : SourceData) :
    regenerate_report_from_sources llm query sd = perform_synthesis llm query sd [] ∧
    ((regenerate_report_from_sources llm query sd).2.countP
      (fun e => e.isProviderFetch)) = 0 ∧
    (regenerate_report_from_sources llm query sd).1.source_data = sd := by
  refine ⟨rfl, ?_, perform_synthesis_source_data llm query sd []⟩
  rw [List.countP_eq_zero]
  intro e he
  simpa using perform_synthesis_trace_llm llm query sd [] e he


set_option maxRecDepth 100000 in
/-- C1 (counterexample).  At a concrete grouped-records map with one evidence
record and a failing probe, the controller does return a degraded result, but
the assembled report does not list the record: the record's title (hence the
record's title/content/url triple) does not occur in the report text.  This
refutes the claim that the degraded report lists the grouped records
verbatim. -/
theorem c1_counterexample :
    ((perform_synthesis (fun _ _ => "Error: unreachable") "q"
        [("web_sources", [{ title := some "zqvxk", content := some "wk", url := some "uk" }])]
        []).1.is_raw_data = true) ∧
    pyIn "zqvxk"
      ((perform_synthesis (fun _ _ => "Error: unreachable") "q"
        [("web_sources", [{ title := some "zqvxk", content := some "wk", url := some "uk" }])]
        []).1.report) = false := by
  constructor
  · decide
  · decide

/-- C1 (amended).  With at least one evidence record and a failing probe, the
controller returns the raw-data report: the result is marked degraded
(`is_raw_data = true`), the whole call trace is the single probe call (so no
Stage A or Stage B call is made), and the grouped records — every category of
the input included — are returned unchanged in the result's `source_data`
field; the report text itself carries only the note, the upstream errors and
the total source count, not the per-record title/content/url. -/
theorem c1_degraded_path (llm : String → String → String) (query : String)
    (sd : SourceData) (errs : List String)
    (h1 : totalSources sd ≠ 0)
    (h2 : llmUnavailable (llm "Test" "You are a helpful assistant.") = true) :
    perform_synthesis llm query sd errs = (create_raw_data_report query sd errs, [probeEvent]) ∧
    (perform_synthesis llm query sd errs).1.is_raw_data = true ∧
    (perform_synthesis llm query sd errs).1.source_data = sd ∧
    (perform_synthesis llm query sd errs).2 = [probeEvent] := by
  have h := perform_synthesis_degraded llm query sd errs h1 h2
  refine ⟨h, ?_, perform_synthesis_source_data llm query sd errs, by rw [h]⟩
  rw [h]
  simp [create_raw_data_report]

/-- Witness for C1 (amended) at a concrete input. -/
theorem c1_degraded_path_witness :
    (perform_synthesis (fun _ _ => "Error: client down") "covid"
        [("web_sources", [{ title := some "t1", content := some "c1", url := some "u1" }]),
         ("arxiv__sources", [{ title := some "t2", content := some "c2", url := some "" }])]
        ["errX"]).1.is_raw_data = true ∧
    (perform_synthesis (fun _ _ => "Error: client down") "covid"
        [("web_sources", [{ title := some "t1", content := some "c1", url := some "u1" }]),
         ("arxiv__sources", [{ title := some "t2", content := some "c2", url := some "" }])]
        ["errX"]).1.source_data =
      [("web_sources", [{ title := some "t1", content := some "c1", url := some "u1" }]),
       ("arxiv__sources", [{ title := some "t2", content := some "c2", url := some "" }])] ∧
    (perform_synthesis (fun _ _ => "Error: client down") "covid"
        [("web_sources", [{ title := some "t1", content := some "c1", url := some "u1" }]),
         ("arxiv__sources", [{ title := some "t2", content := some "c2", url := some "" }])]
        ["errX"]).2 = [probeEvent] := by
  have h := c1_degraded_path (fun _ _ => "Error: client down") "covid"
    [("web_sources", [{ title := some "t1", content := some "c1", url := some "u1" }]),
     ("arxiv__sources", [{ title := some "t2", content := some "c2", url := some "" }])]
    ["errX"] (by decide) (by decide)
  exact ⟨h.2.1, h.2.2.1, h.2.2.2⟩

/-- C9.  The availability decision is the pure string predicate
`llmUnavailable` of the probe response — response starts with `"Error:"`, or
contains `"Azure OpenAI"`, or contains `"Language Model"` — and, whenever
records are present, the controller produces a degraded (raw-data) result
exactly when that predicate holds of the probe response. -/
theorem c9_probe_predicate (llm : String → String → String) (query : String)
    (sd : SourceData) (errs : List String)
    (h : totalSources sd ≠ 0) :
    (∀ resp, llmUnavailable resp =
      (pyStartswith resp "Error:" || pyIn "Azure OpenAI" resp || pyIn "Language Model" resp)) ∧
    (perform_synthesis llm query sd errs).1.is_raw_data =
      llmUnavailable (llm "Test" "You are a helpful assistant.") := by
  refine ⟨fun resp => rfl, ?_⟩
  by_cases hu : llmUnavailable (llm "Test" "You are a helpful assistant.") = true
  · rw [perform_synthesis_degraded llm query sd errs h hu, hu]
    simp [create_raw_data_report]
  · have hu2 : llmUnavailable (llm "Test" "You are a helpful assistant.") = false :=
      Bool.not_eq_true _ ▸ Bool.of_not_eq_true hu
    rw [perform_synthesis_available llm query sd errs h hu2, hu2]

/-- Witness for C9: a successful-looking probe response that merely mentions
`"Azure OpenAI"` is classified unavailable and yields a degraded report. -/
theorem c9_probe_predicate_witness :
    (perform_synthesis (fun _ _ => "Azure OpenAI is a cloud service offering GPT models.")
        "what is azure"
        [("web_sources", [{ title := some "t", content := some "c", url := some "u" }])]
        []).1.is_raw_data = true := by
  have h := c9_probe_predicate
    (fun _ _ => "Azure OpenAI is a cloud service offering GPT models.") "what is azure"
    [("web_sources", [{ title := some "t", content := some "c", url := some "u" }])]
    [] (by decide)
  rw [h.2]
  decide

/-! ## Embedding-index claims -/

/-- C5.  Appending a non-empty batch of chunks to an initialized store leaves
the previously stored documents in place (they remain the prefix of the
store) and raises the reported chunk count by exactly the batch size; and
appending to a never-initialized store is the same operation as building the
store from that batch. -/
theorem c5_append_monotonic (h : VectorStoreHandler)
    (documents stored : List LangchainDocument) :
    (documents ≠ [] → h.vector_store = some stored →
      (h.add_documents_to_store documents).get_store_status.num_docs =
          stored.length + documents.length ∧
        (h.add_documents_to_store documents).vector_store = some (stored ++ documents)) ∧
    (h.vector_store = none →
      h.add_documents_to_store documents = h.init_store_from_documents documents) := by
  constructor
  · intro hne hst
    unfold VectorStoreHandler.add_documents_to_store
    rw [if_neg hne, hst]
    exact ⟨by simp [VectorStoreHandler.get_store_status], rfl⟩
  · intro hnone
    unfold VectorStoreHandler.add_documents_to_store VectorStoreHandler.init_store_from_documents
    rw [hnone]
    by_cases hd : documents = []
    · rw [if_pos hd, if_pos hd]
      obtain ⟨e, m, vs⟩ := h
      simp only at hnone
      rw [hnone]
    · rw [if_neg hd, if_neg hd]

/-- Witness for C5: appending two chunks to a store holding one. -/
theorem c5_append_monotonic_witness :
    (VectorStoreHandler.add_documents_to_store
        { emb := fun _ => 0, model_name := "all-MiniLM-L6-v2",
          vector_store := some [{ page_content := "a", metadata := {} }] }
        [{ page_content := "b", metadata := {} }, { page_content := "c", metadata := {} }]
      ).get_store_status.num_docs = 1 + 2 ∧
    (VectorStoreHandler.add_documents_to_store
        { emb := fun _ => 0, model_name := "all-MiniLM-L6-v2", vector_store := none }
        [{ page_content := "b", metadata := {} }]) =
      (VectorStoreHandler.init_store_from_documents
        { emb := fun _ => 0, model_name := "all-MiniLM-L6-v2", vector_store := none }
        [{ page_content := "b", metadata := {} }]) := by
  constructor
  · exact ((c5_append_monotonic
      { emb := fun _ => 0, model_name := "all-MiniLM-L6-v2",
        vector_store := some [{ page_content := "a", metadata := {} }] }
      [{ page_content := "b", metadata := {} }, { page_content := "c", metadata := {} }]
      [{ page_content := "a", metadata := {} }]).1 (by simp) rfl).1
  · exact (c5_append_monotonic
      { emb := fun _ => 0, model_name := "all-MiniLM-L6-v2", vector_store := none }
      [{ page_content := "b", metadata := {} }] []).2 rfl


/-! ## PDF extraction and chunk-metadata claims -/

/-- Any string of the form `"Could not extract text from " ++ name ++ tail`
starts with `"Could not extract text from"`. -/
lemma pyStartswith_couldNot (name tail : String) :
    pyStartswith ("Could not extract text from " ++ name ++ tail)
      "Could not extract text from" = true := by
  unfold pyStartswith
  rw [ List.isPrefixOf_iff_prefix]
  have h1 : "Could not extract text from".data <+: "Could not extract text from ".data := by
    decide
  have h2 : ("Could not extract text from " ++ name ++ tail).data =
      ("Could not extract text from ".data ++ name.data) ++ tail.data := by
    simp [String.data_append]
  rw [h2]
  exact h1.trans ((List.prefix_append _ _).trans (List.prefix_append _ _))

/-- C10.  A PDF stream whose read raises never propagates the exception:
both exception branches of `extract_text_from_pdf_stream` return an ordinary
string beginning `"Could not extract text from"` (no distinct failure type),
and `extract_text_from_uploaded_files` yields exactly one string per uploaded
file with the failing file's error string sitting at its own position. -/
theorem c10_extraction_error_containment (files : List UploadedFile) (i : Nat)
    (hi : i < files.length)
    (hf : (files.get ⟨i, hi⟩).fails = true) :
    (extract_text_from_uploaded_files files).length = files.length ∧
    pyStartswith ((extract_text_from_uploaded_files files).getD i "")
      "Could not extract text from" = true ∧
    (∀ msg filename,
      extract_text_from_pdf_stream (PdfStreamBehavior.pdfReadError msg) filename =
        "Could not extract text from " ++ filename ++
          ": File is corrupted or password-protected.") ∧
    (∀ msg filename,
      extract_text_from_pdf_stream (PdfStreamBehavior.otherError msg) filename =
        "Could not extract text from " ++ filename ++ ": An unexpected error occurred.") := by
  refine ⟨List.length_map _ _, ?_, fun _ _ => rfl, fun _ _ => rfl⟩
  have hlen : i < (extract_text_from_uploaded_files files).length := by
    simpa [extract_text_from_uploaded_files] using hi
  rw [List.getD_eq_get _ _ hlen]
  have hmap : (extract_text_from_uploaded_files files).get ⟨i, hlen⟩ =
      (if (files.get ⟨i, hi⟩).outer_raises then
        "Could not extract text from " ++ (files.get ⟨i, hi⟩).name ++
          ": Critical processing error."
      else extract_text_from_pdf_stream (files.get ⟨i, hi⟩).stream (files.get ⟨i, hi⟩).name) := by
    simp [extract_text_from_uploaded_files]
  rw [hmap]
  by_cases houter : (files.get ⟨i, hi⟩).outer_raises
  · rw [if_pos houter]
    exact pyStartswith_couldNot _ _
  · rw [if_neg houter]
    have hraises : (files.get ⟨i, hi⟩).stream.raises = true := by
      unfold UploadedFile.fails at hf
      rcases Bool.or_eq_true_iff.mp hf with h | h
      · exact absurd h houter
      · exact h
    cases hstream : (files.get ⟨i, hi⟩).stream with
    | ok pages => rw [hstream] at hraises; simp [PdfStreamBehavior.raises] at hraises
    | pdfReadError msg => exact pyStartswith_couldNot _ _
    | otherError msg => exact pyStartswith_couldNot _ _

/-- Witness for C10: two files, the second of which raises
`PdfReadError`. -/
theorem c10_extraction_error_containment_witness :
    (extract_text_from_uploaded_files
      [{ name := "good.pdf", outer_raises := false,
         stream := PdfStreamBehavior.ok [some "page one"] },
       { name := "bad.pdf", outer_raises := false,
         stream := PdfStreamBehavior.pdfReadError "EOF marker not found" }]).length = 2 ∧
    pyStartswith ((extract_text_from_uploaded_files
      [{ name := "good.pdf", outer_raises := false,
         stream := PdfStreamBehavior.ok [some "page one"] },
       { name := "bad.pdf", outer_raises := false,
         stream := PdfStreamBehavior.pdfReadError "EOF marker not found" }]).getD 1 "")
      "Could not extract text from" = true := by
  have h := c10_extraction_error_containment
    [{ name := "good.pdf", outer_raises := false,
       stream := PdfStreamBehavior.ok [some "page one"] },
     { name := "bad.pdf", outer_raises := false,
       stream := PdfStreamBehavior.pdfReadError "EOF marker not found" }]
    1 (by decide) (by decide)
  exact ⟨h.1, h.2.1⟩

set_option maxRecDepth 8192 in
/-- C8 (counterexample).  A chunk produced by the chunker from a document with
no page information carries no page number at all in its metadata (not page
1), and the Evidence Record later built from it shows the placeholder
`"N/A"`. -/
theorem c8_counterexample :
    (DocumentIndexer.process_pdf (fun t => [t]) "hello world" "doc.pdf").map
        (fun d => d.metadata.page_number) = [none] ∧
    (DocumentIndexer.process_pdf (fun t => [t]) "hello world" "doc.pdf").map
        (fun d => (recordFromChunk d).page_number) = [some "N/A"] ∧
    ([none] : List (Option Nat)) ≠ [some 1] := by
  exact ⟨by decide, by decide, by decide⟩

/-- C8 (amended).  The chunker attaches no page number: every chunk's
metadata records only source, 1-based ordinal and total count, with
`page_number` absent; when such a chunk is emitted as an Evidence Record, its
`page_number` field defaults to the placeholder string `"N/A"`. -/
theorem c8_no_page_attached (split_text : String → List String)
    (final_text_to_chunk pdf_name : String) (d : LangchainDocument)
    (hd : d ∈ DocumentIndexer.process_pdf split_text final_text_to_chunk pdf_name) :
    d.metadata.page_number = none ∧
    (recordFromChunk d).page_number = some "N/A" ∧
    d.metadata.source = some pdf_name := by
  unfold DocumentIndexer.process_pdf at hd
  by_cases hempty : pyStrip final_text_to_chunk = ""
  · rw [if_pos hempty] at hd
    simp at hd
  · rw [if_neg hempty] at hd
    simp only [List.mem_map] at hd
    obtain ⟨p, hp, rfl⟩ := hd
    exact ⟨rfl, rfl, rfl⟩

set_option maxRecDepth 8192 in
/-- Witness for C8 (amended) at a concrete chunk. -/
theorem c8_no_page_attached_witness :
    ({ page_content := "hello world",
       metadata := { source := some "doc.pdf", chunk_number := some 1,
                     total_chunks := some 1 } } : LangchainDocument).metadata.page_number =
      none ∧
    (recordFromChunk
      { page_content := "hello world",
        metadata := { source := some "doc.pdf", chunk_number := some 1,
                      total_chunks := some 1 } }).page_number = some "N/A" := by
  have h := c8_no_page_attached (fun t => [t]) "hello world" "doc.pdf"
    { page_content := "hello world",
      metadata := { source := some "doc.pdf", chunk_number := some 1,
                    total_chunks := some 1 } }
    (by decide)
  exact ⟨h.1, h.2.1⟩


/-! ## Ordering of modelled similarity search -/

/-- Inserting into the sorted list permutes `x :: l`. -/
lemma insertPair_perm (x : Nat × LangchainDocument) (l : List (Nat × LangchainDocument)) :
    (insertPair x l).Perm (x :: l) := by
  induction l with
  | nil => exact List.Perm.refl _
  | cons y t ih =>
      unfold insertPair
      by_cases hxy : x.1 ≤ y.1
      · rw [if_pos hxy]
      · rw [if_neg hxy]
        exact (ih.cons y).trans (List.Perm.swap x y t)

/-- Insertion keeps the list sorted by distance. -/
lemma insertPair_pairwise (x : Nat × LangchainDocument)
    (l : List (Nat × LangchainDocument))
    (h : l.Pairwise fun a b => a.1 ≤ b.1) :
    (insertPair x l).Pairwise fun a b => a.1 ≤ b.1 := by
  induction l with
  | nil => simp [insertPair]
  | cons y t ih =>
      rw [List.pairwise_cons] at h
      obtain ⟨hy, ht⟩ := h
      unfold insertPair
      by_cases hxy : x.1 ≤ y.1
      · rw [if_pos hxy]
        refine List.Pairwise.cons ?_ (List.Pairwise.cons hy ht)
        intro b hb
        rcases List.mem_cons.mp hb with rfl | hb
        · exact hxy
        · exact le_trans hxy (hy b hb)
      · rw [if_neg hxy]
        refine List.Pairwise.cons ?_ (ih ht)
        intro b hb
        rcases List.mem_cons.mp ((insertPair_perm x t).mem_iff.mp hb) with rfl | hb2
        · exact le_of_not_le hxy
        · exact hy b hb2

/-- Insertion sort permutes its input. -/
lemma sortPairs_perm (l : List (Nat × LangchainDocument)) : (sortPairs l).Perm l := by
  induction l with
  | nil => exact List.Perm.refl _
  | cons x t ih => exact (insertPair_perm x (sortPairs t)).trans (ih.cons x)

/-- Insertion sort sorts by ascending distance. -/
lemma sortPairs_pairwise (l : List (Nat × LangchainDocument)) :
    (sortPairs l).Pairwise fun a b => a.1 ≤ b.1 := by
  induction l with
  | nil => simp [sortPairs]
  | cons x t ih => exact insertPair_pairwise x _ ih

/-- C6.  The query operation never mutates the handler; it returns `[]`
whenever the store is absent, the query text is empty, or `k ≤ 0`; and on a
present store with a non-empty query it returns at most `k` documents which
are a nearest-first selection of the stored documents: some reordering of the
store splits into the returned documents followed by the rest, sorted by
ascending distance to the query, so the returned documents are the `k`
nearest, nearest first. -/
theorem c6_query_behavior (h : VectorStoreHandler) (query : String) (k : Int) :
    (h.search_relevant_chunks query k).2 = h ∧
    (h.vector_store = none → (h.search_relevant_chunks query k).1 = []) ∧
    (query = "" → (h.search_relevant_chunks query k).1 = []) ∧
    (k ≤ 0 → (h.search_relevant_chunks query k).1 = []) ∧
    (∀ docs, h.vector_store = some docs → query ≠ "" →
      (h.search_relevant_chunks query k).1.length ≤ k.toNat ∧
      ∃ rest, ((h.search_relevant_chunks query k).1 ++ rest).Perm docs ∧
        ((h.search_relevant_chunks query k).1 ++ rest).Pairwise
          (fun a b => distTo h.emb query a ≤ distTo h.emb query b)) := by
  obtain ⟨emb, mn, vs⟩ := h
  cases vs with
  | none =>
      refine ⟨rfl, fun _ => rfl, fun _ => rfl, fun _ => rfl, ?_⟩
      intro docs hd
      cases hd
  | some docs0 =>
      by_cases hq : query = ""
      · subst hq
        unfold VectorStoreHandler.search_relevant_chunks
        refine ⟨rfl, fun _ => rfl, fun _ => rfl, fun _ => rfl, ?_⟩
        intro docs hd hq2
        exact absurd rfl hq2
      · have hsearch :
            VectorStoreHandler.search_relevant_chunks ⟨emb, mn, some docs0⟩ query k =
              (faissSimilaritySearch emb docs0 query k, ⟨emb, mn, some docs0⟩) := by
          unfold VectorStoreHandler.search_relevant_chunks
          dsimp only
          rw [if_neg hq]
        rw [hsearch]
        refine ⟨rfl, ?_, fun hq2 => absurd hq2 hq, ?_, ?_⟩
        · intro hd; cases hd
        · intro hk
          unfold faissSimilaritySearch
          rw [Int.toNat_of_nonpos hk, List.take_zero]
        · intro docs hd hq2
          injection hd with hd
          subst hd
          unfold faissSimilaritySearch
          refine ⟨List.length_take_le _ _, ?_⟩
          refine ⟨((sortPairs (docs0.map fun d => (distTo emb query d, d))).map
            Prod.snd).drop k.toNat, ?_, ?_⟩
          · rw [List.take_append_drop]
            have hp := (sortPairs_perm (docs0.map fun d => (distTo emb query d, d))).map Prod.snd
            rw [List.map_map] at hp
            have hid : (Prod.snd ∘ fun d => (distTo emb query d, d)) =
                (id : LangchainDocument → LangchainDocument) := rfl
            rw [hid, List.map_id] at hp
            exact hp
          · rw [List.take_append_drop]
            have hpw := sortPairs_pairwise (docs0.map fun d => (distTo emb query d, d))
            have hmemEq : ∀ p ∈ sortPairs (docs0.map fun d => (distTo emb query d, d)),
                p.1 = distTo emb query p.2 := by
              intro p hp2
              have hp3 := (sortPairs_perm _).mem_iff.mp hp2
              simp only [List.mem_map] at hp3
              obtain ⟨d, _, rfl⟩ := hp3
              rfl
            rw [List.pairwise_map]
            refine hpw.imp_of_mem ?_
            intro a b ha hb hab
            rw [← hmemEq a ha, ← hmemEq b hb]
            exact hab

/-- Witness for C6 at concrete inputs: absent store, empty query, and
non-positive `k` each yield the empty result. -/
theorem c6_query_behavior_witness :
    (VectorStoreHandler.search_relevant_chunks
      { emb := fun _ => 0, model_name := "all-MiniLM-L6-v2", vector_store := none }
      "abc" 3).1 = [] ∧
    (VectorStoreHandler.search_relevant_chunks
      { emb := fun _ => 0, model_name := "all-MiniLM-L6-v2",
        vector_store := some [{ page_content := "a", metadata := {} }] }
      "" 3).1 = [] ∧
    (VectorStoreHandler.search_relevant_chunks
      { emb := fun _ => 0, model_name := "all-MiniLM-L6-v2",
        vector_store := some [{ page_content := "a", metadata := {} }] }
      "abc" 0).1 = [] := by
  refine ⟨(c6_query_behavior _ "abc" 3).2.1 rfl,
    (c6_query_behavior _ "" 3).2.2.1 rfl,
    (c6_query_behavior _ "abc" 0).2.2.2.1 (by decide)⟩

/-! ## Source-aggregator claims -/

/-- C7 (counterexample).  A category filter is supplied (allowed label set
`{"TypeA"}`) and the document category is selected, but because uploaded
files accompany the call, a retrieved chunk labelled `"TypeB"` — not in the
allowed set — is still emitted as an Evidence Record. -/
theorem c7_counterexample :
    (pdfStep "q" [SOURCE_PDF] true (some [("f.pdf", "TypeA")])
      (some { emb := fun _ => 0, model_name := "m",
              vector_store := some
                [{ page_content := "hello", metadata := { pdf_type := some "TypeB" } }] })).1 =
      [("pdf_sources",
        [recordFromChunk
          { page_content := "hello", metadata := { pdf_type := some "TypeB" } }])] ∧
    (["TypeA"].contains "TypeB") = false := by
  exact ⟨by decide, by decide⟩

/-- C7 (amended).  When the document category is selected, a non-empty
category filter is supplied, and no uploaded files accompany the call, the
emitted `pdf_sources` records are exactly the retrieved chunks whose label
(defaulting to `"Unknown"`) lies in the allowed set — chunks outside the set
are dropped, chunks inside it are kept; with uploaded files present the
filter is skipped (see the counterexample). -/
theorem c7_type_filter (h : VectorStoreHandler) (query : String)
    (selected : List String) (ts : List (String × String))
    (docs : List LangchainDocument)
    (hsel : SOURCE_PDF ∈ selected)
    (hst : h.vector_store = some docs)
    (hts : ts ≠ []) :
    pdfStep query selected false (some ts) (some h) =
      ([("pdf_sources",
        (((h.search_relevant_chunks query MAX_PDF_CHUNKS_TO_LLM).1).filter
          (fun c => (ts.map Prod.snd).contains (c.metadata.pdf_type.getD "Unknown"))).map
          recordFromChunk)], []) ∧
    (∀ c ∈ (h.search_relevant_chunks query MAX_PDF_CHUNKS_TO_LLM).1,
      (ts.map Prod.snd).contains (c.metadata.pdf_type.getD "Unknown") = true →
      recordFromChunk c ∈
        (((h.search_relevant_chunks query MAX_PDF_CHUNKS_TO_LLM).1).filter
          (fun c => (ts.map Prod.snd).contains (c.metadata.pdf_type.getD "Unknown"))).map
          recordFromChunk) := by
  constructor
  · obtain ⟨emb, mn, vs⟩ := h
    simp only at hst
    subst hst
    unfold pdfStep
    dsimp only
    rw [if_pos hsel]
    have hfilter : filterChunksByType (some ts) false
        (VectorStoreHandler.search_relevant_chunks ⟨emb, mn, some docs⟩ query
          MAX_PDF_CHUNKS_TO_LLM).1 =
        ((VectorStoreHandler.search_relevant_chunks ⟨emb, mn, some docs⟩ query
          MAX_PDF_CHUNKS_TO_LLM).1).filter
          (fun c => (ts.map Prod.snd).contains (c.metadata.pdf_type.getD "Unknown")) := by
      rw [filterChunksByType]
      rw [if_pos ⟨hts, rfl⟩]
      dsimp only
      rw [if_pos (by simpa using hts)]
    by_cases hrel :
        (VectorStoreHandler.search_relevant_chunks ⟨emb, mn, some docs⟩ query
          MAX_PDF_CHUNKS_TO_LLM).1 ≠ []
    · rw [if_pos hrel, hfilter]
    · rw [if_neg hrel]
      rw [not_not] at hrel
      rw [hrel]
      simp
  · intro c hc hlabel
    exact List.mem_map_of_mem recordFromChunk (List.mem_filter.mpr ⟨hc, hlabel⟩)

/-- Witness for C7 (amended): with no uploaded files, only the `"TypeA"`
chunk of two retrieved chunks survives the filter. -/
theorem c7_type_filter_witness :
    (pdfStep "q" [SOURCE_PDF] false (some [("f.pdf", "TypeA")])
      (some { emb := fun _ => 0, model_name := "m",
              vector_store := some
                [{ page_content := "ha", metadata := { pdf_type := some "TypeA" } },
                 { page_content := "hb", metadata := { pdf_type := some "TypeB" } }] })).1 =
      [("pdf_sources",
        [recordFromChunk
          { page_content := "ha", metadata := { pdf_type := some "TypeA" } }])] := by
  have h := c7_type_filter
    { emb := fun _ => 0, model_name := "m",
      vector_store := some
        [{ page_content := "ha", metadata := { pdf_type := some "TypeA" } },
         { page_content := "hb", metadata := { pdf_type := some "TypeB" } }] }
    "q" [SOURCE_PDF] [("f.pdf", "TypeA")]
    [{ page_content := "ha", metadata := { pdf_type := some "TypeA" } },
     { page_content := "hb", metadata := { pdf_type := some "TypeB" } }]
    (by simp) rfl (by decide)
  rw [h.1]
  decide

/-- C3 (code evaluation at the failing input).  Two registered, selected
providers: Alpha's fetch raises, Beta's fetch returns one well-formed record.
Because the loop body first evaluates `pubmed_fetcher.SOURCE_NAME` — an
attribute `utils/pubmed_fetcher.py` never defines — every provider iteration
raises `AttributeError` before any fetch happens: the output map is empty
(Beta's record is lost), both providers produce the same `AttributeError`
warning, and no provider fetch event occurs. -/
theorem c3_aggregator_attribute_error :
    providerLoop "q" 3
      [("Alpha Provider", some (fun _ _ => Except.error "simulated timeout")),
       ("Beta Provider", some (fun _ _ => Except.ok
         [FetchItem.dict { title := some "B1", content := some "bc", url := some "bu" }]))]
      ["Alpha Provider", "Beta Provider"] ([], [], []) =
      ([],
       ["Exception fetching from Alpha Provider: module \x27utils.pubmed_fetcher\x27 has no attribute \x27SOURCE_NAME\x27",
        "Exception fetching from Beta Provider: module \x27utils.pubmed_fetcher\x27 has no attribute \x27SOURCE_NAME\x27"],
       []) := by
  rfl

end DeepResearch
